import Mathlib

/-!
Shallow embedding of the HealthLake ETL script
(src/tools/AppInfraCdkV1.Tools.Common/scripts/glue/healthlake_etl.py).

Python / JSON-like values are modelled by `PyVal`; the Spark dataframe rows
by association lists of columns; the external collaborators (the Spark read
and write, the Glue catalog client) by an `Env` record of outcomes; side
effects (data writes, catalog calls, log lines) by a list of `Event`s.
-/

namespace HealthlakeEtl

/-- A Python value as this script can encounter it: `None`, a string, an
integer, a list, or a dict (association list of string keys). -/
inductive PyVal where
  | none : PyVal
  | str : String → PyVal
  | int : Int → PyVal
  | list : List PyVal → PyVal
  | dict : List (String × PyVal) → PyVal

mutual

/-- Decidable equality on `PyVal` (hand-rolled; the nested inductive defeats
the deriving handler). -/
def PyVal.decEq : (a b : PyVal) → Decidable (a = b)
  | PyVal.none, PyVal.none => isTrue rfl
  | PyVal.str a, PyVal.str b =>
    if h : a = b then isTrue (by rw [h])
    else isFalse (fun hh => h (by injection hh))
  | PyVal.int a, PyVal.int b =>
    if h : a = b then isTrue (by rw [h])
    else isFalse (fun hh => h (by injection hh))
  | PyVal.list xs, PyVal.list ys =>
    match PyVal.decEqList xs ys with
    | isTrue h => isTrue (by rw [h])
    | isFalse h => isFalse (fun hh => h (by injection hh))
  | PyVal.dict xs, PyVal.dict ys =>
    match PyVal.decEqDict xs ys with
    | isTrue h => isTrue (by rw [h])
    | isFalse h => isFalse (fun hh => h (by injection hh))
  | PyVal.none, PyVal.str _ => isFalse (fun h => PyVal.noConfusion h)
  | PyVal.none, PyVal.int _ => isFalse (fun h => PyVal.noConfusion h)
  | PyVal.none, PyVal.list _ => isFalse (fun h => PyVal.noConfusion h)
  | PyVal.none, PyVal.dict _ => isFalse (fun h => PyVal.noConfusion h)
  | PyVal.str _, PyVal.none => isFalse (fun h => PyVal.noConfusion h)
  | PyVal.str _, PyVal.int _ => isFalse (fun h => PyVal.noConfusion h)
  | PyVal.str _, PyVal.list _ => isFalse (fun h => PyVal.noConfusion h)
  | PyVal.str _, PyVal.dict _ => isFalse (fun h => PyVal.noConfusion h)
  | PyVal.int _, PyVal.none => isFalse (fun h => PyVal.noConfusion h)
  | PyVal.int _, PyVal.str _ => isFalse (fun h => PyVal.noConfusion h)
  | PyVal.int _, PyVal.list _ => isFalse (fun h => PyVal.noConfusion h)
  | PyVal.int _, PyVal.dict _ => isFalse (fun h => PyVal.noConfusion h)
  | PyVal.list _, PyVal.none => isFalse (fun h => PyVal.noConfusion h)
  | PyVal.list _, PyVal.str _ => isFalse (fun h => PyVal.noConfusion h)
  | PyVal.list _, PyVal.int _ => isFalse (fun h => PyVal.noConfusion h)
  | PyVal.list _, PyVal.dict _ => isFalse (fun h => PyVal.noConfusion h)
  | PyVal.dict _, PyVal.none => isFalse (fun h => PyVal.noConfusion h)
  | PyVal.dict _, PyVal.str _ => isFalse (fun h => PyVal.noConfusion h)
  | PyVal.dict _, PyVal.int _ => isFalse (fun h => PyVal.noConfusion h)
  | PyVal.dict _, PyVal.list _ => isFalse (fun h => PyVal.noConfusion h)

/-- Decidable equality on lists of `PyVal`. -/
def PyVal.decEqList : (xs ys : List PyVal) → Decidable (xs = ys)
  | [], [] => isTrue rfl
  | [], _ :: _ => isFalse (fun h => List.noConfusion h)
  | _ :: _, [] => isFalse (fun h => List.noConfusion h)
  | x :: xs, y :: ys =>
    match PyVal.decEq x y with
    | isFalse h1 => isFalse (fun h => h1 (by injection h))
    | isTrue h1 =>
      match PyVal.decEqList xs ys with
      | isTrue h2 => isTrue (by rw [h1, h2])
      | isFalse h2 => isFalse (fun h => h2 (by injection h))

/-- Decidable equality on `PyVal` dict entry lists. -/
def PyVal.decEqDict : (xs ys : List (String × PyVal)) → Decidable (xs = ys)
  | [], [] => isTrue rfl
  | [], _ :: _ => isFalse (fun h => List.noConfusion h)
  | _ :: _, [] => isFalse (fun h => List.noConfusion h)
  | (k, v) :: xs, (k2, v2) :: ys =>
    if hk : k = k2 then
      match PyVal.decEq v v2 with
      | isFalse hv => isFalse (fun h => by
          injection h with hh ht
          injection hh with hk2 hv2
          exact hv hv2)
      | isTrue hv =>
        match PyVal.decEqDict xs ys with
        | isTrue ht => isTrue (by rw [hk, hv, ht])
        | isFalse ht => isFalse (fun h => ht (by injection h))
    else isFalse (fun h => by
      injection h with hh ht
      injection hh with hk2 hv2
      exact hk hk2)

end

instance : DecidableEq PyVal := PyVal.decEq

/-- Python truthiness test used by `if not security_labels`: `None`, `0`,
the empty string, the empty list and the empty dict are falsy. -/
def pyFalsy : PyVal → Bool
  | PyVal.none => true
  | PyVal.str s => s.isEmpty
  | PyVal.int n => n == 0
  | PyVal.list xs => xs.isEmpty
  | PyVal.dict es => es.isEmpty

/-- Python iteration as used by `for label in security_labels`: a list
yields its elements, a string yields its characters (as strings), a dict
yields its keys; `None` and integers are not iterable (`TypeError`). -/
def pyIter : PyVal → Option (List PyVal)
  | PyVal.list xs => some xs
  | PyVal.str s => some (s.data.map (fun c => PyVal.str (String.mk [c])))
  | PyVal.dict es => some (es.map (fun e => PyVal.str e.1))
  | PyVal.none => Option.none
  | PyVal.int _ => Option.none

/-- Python `dict.get(key)`: the value bound to the first occurrence of the
key, if any. -/
def dictGet (es : List (String × PyVal)) (k : String) : Option PyVal :=
  (es.find? (fun e => e.1 == k)).map (fun e => e.2)

/-- The fixed tenant claim system URI from the script. -/
def TENANT_CLAIM_SYSTEM : String := "http://thirdopinion.io/identity/claims/tenant"

/-- `v.isDict` is true exactly when `isinstance(v, dict)` is. -/
def PyVal.isDict : PyVal → Bool
  | PyVal.dict _ => true
  | _ => false

/-- One step of the `for label in security_labels` loop body:
`isinstance(label, dict) and label.get('system') == TENANT_CLAIM_SYSTEM`. -/
def matchesTenant : PyVal → Bool
  | PyVal.dict es => decide (dictGet es "system" = some (PyVal.str TENANT_CLAIM_SYSTEM))
  | _ => false

/-- The loop of `extract_tenant_id`: `some r` when some iteration executed
`return r` (namely `label.get('code', 'unknown')` of the first matching
label), `none` when the loop ran off the end. -/
def findTenantLoop : List PyVal → Option PyVal
  | [] => Option.none
  | l :: rest =>
    match l with
    | PyVal.dict es =>
      if dictGet es "system" = some (PyVal.str TENANT_CLAIM_SYSTEM) then
        some ((dictGet es "code").getD (PyVal.str "unknown"))
      else findTenantLoop rest
    | _ => findTenantLoop rest

/-- `extract_tenant_id` with the `try`/`except` removed: `Except.error`
marks the exception that Python would raise when the argument is truthy but
not iterable. -/
def extract_tenant_id_unguarded (security_labels : PyVal) : Except String PyVal :=
  if pyFalsy security_labels then Except.ok (PyVal.str "unknown")
  else
    match pyIter security_labels with
    | Option.none => Except.error "TypeError: object is not iterable"
    | some items => Except.ok ((findTenantLoop items).getD (PyVal.str "unknown"))

/-- `extract_tenant_id(security_labels)`: the bare `except` turns any
exception into the fall-through `return "unknown"`. -/
def extract_tenant_id (security_labels : PyVal) : PyVal :=
  match extract_tenant_id_unguarded security_labels with
  | Except.ok r => r
  | Except.error _ => PyVal.str "unknown"

/-- Helper building a well-formed security label `{system, code}`. -/
def mkLabel (code : String) : PyVal :=
  PyVal.dict [("system", PyVal.str TENANT_CLAIM_SYSTEM), ("code", PyVal.str code)]

/-- A dataframe row: an ordered association list of column name and value. -/
def Row : Type := List (String × PyVal)

instance : DecidableEq Row := fun a b => PyVal.decEqDict a b

/-- The run configuration read from the resolved job arguments (the
module-level variables of the script). -/
structure Config where
  raw_bucket : String
  curated_bucket : String
  tenant_partition_key : String
  enable_multi_tenant : Bool
  export_path : String
  timestamp : String
  deriving DecidableEq

/-- `Dataset.withColumn` of the tabular engine: replace the column if it is
present (keeping its position), otherwise append it at the end of the row. -/
def setCol : Row → String → PyVal → Row
  | [], k, v => [(k, v)]
  | f :: t, k, v => if f.1 = k then (k, v) :: t else f :: setCol t k v

/-- Column lookup on a row. -/
def rowGet : Row → String → Option PyVal
  | [], _ => Option.none
  | f :: t, k => if f.1 = k then some f.2 else rowGet t k

/-- `col("meta.security")` as handed to the tenant UDF: the nested field, or
null when `meta` or `meta.security` is missing. -/
def getMetaSecurity (r : Row) : PyVal :=
  match rowGet r "meta" with
  | some (PyVal.dict es) => (dictGet es "security").getD PyVal.none
  | _ => PyVal.none

/-- The per-record effect of lines 89-101 of the script: in multi-tenant
mode the tenant column is `extractor` applied to `meta.security`; otherwise
the literal `"default"`; then the two metadata columns are added. The
extractor is a parameter so that (non-)dependence on it is expressible. -/
def tagRecord (extractor : PyVal → PyVal) (cfg : Config) (processing_date : String)
    (r : Row) : Row :=
  let r1 :=
    if cfg.enable_multi_tenant then
      setCol r cfg.tenant_partition_key (extractor (getMetaSecurity r))
    else
      setCol r cfg.tenant_partition_key (PyVal.str "default")
  let r2 := setCol r1 "_export_timestamp" (PyVal.str cfg.timestamp)
  setCol r2 "_processing_date" (PyVal.str processing_date)

/-- The whole-dataset tagging: `withColumn` applies the row transform to
every record. -/
def tagDataset (extractor : PyVal → PyVal) (cfg : Config) (processing_date : String)
    (df : List Row) : List Row :=
  df.map (tagRecord extractor cfg processing_date)

/-- The effect of `withColumn` on the dataframe schema (name and type
pairs): replace in place or append. -/
def addSchemaCol : List (String × String) → String → String → List (String × String)
  | [], n, ty => [(n, ty)]
  | f :: rest, n, ty => if f.1 = n then (n, ty) :: rest else f :: addSchemaCol rest n ty

/-- Schema of `df_with_metadata`: the input schema with the tenant column
and the two metadata columns added. -/
def taggedSchema (cfg : Config) (s : List (String × String)) : List (String × String) :=
  addSchemaCol
    (addSchemaCol (addSchemaCol s cfg.tenant_partition_key "string")
      "_export_timestamp" "string")
    "_processing_date" "string"

/-- Outcome of a `glue_client.create_table` call. -/
inductive CreateResult where
  | ok : CreateResult
  | alreadyExists : CreateResult
  | err : String → CreateResult
  deriving DecidableEq

/-- The external collaborators, fixed for a run: the Spark read (per
resource type: either the parsed rows or a raised error), the read schema,
the write outcome, and the Glue catalog outcomes (per table name). -/
structure Env where
  readResult : String → Except String (List Row)
  inputSchema : String → List (String × String)
  writeErr : String → Option String
  createResult : String → CreateResult
  updateErr : String → Option String

/-- `StorageDescriptor` of a Glue `TableInput`; fields the call omits are
`none`. -/
structure StorageDescriptor where
  columns : List (String × String)
  location : String
  inputFormat : Option String
  outputFormat : Option String
  serializationLibrary : Option String
  storedAsSubDirectories : Option Bool
  deriving DecidableEq

/-- A Glue `TableInput`; fields the call omits are `none`. -/
structure TableInput where
  name : String
  storageDescriptor : StorageDescriptor
  partitionKeys : List (String × String)
  tableType : Option String
  parameters : Option (List (String × String))
  deriving DecidableEq

/-- Observable side effects of the script: a partitioned data write (path,
mode, partition columns, rows), the two catalog calls, and log lines. -/
inductive Event where
  | write : String → String → List String → List Row → Event
  | createTableCall : String → TableInput → Event
  | updateTableCall : String → TableInput → Event
  | log : String → Event
  deriving DecidableEq

/-- Lines 128-134: the Glue column list drops the tenant partition key and
`_export_timestamp`, lower-casing the type names. -/
def glueSchema (cfg : Config) (schema : List (String × String)) : List (String × String) :=
  (schema.filter (fun f =>
    !(f.1 == cfg.tenant_partition_key) && !(f.1 == "_export_timestamp"))).map
    (fun f => (f.1, f.2.toLower))

/-- Lines 137-140: the fixed partition keys, tenant first then timestamp. -/
def glue_partition_keys (cfg : Config) : List (String × String) :=
  [(cfg.tenant_partition_key, "string"), ("_export_timestamp", "string")]

/-- The `StorageDescriptor` the `create_table` call sends (full storage
format and serialization parameters). -/
def fullStorageDescriptor (gs : List (String × String)) (location : String) :
    StorageDescriptor :=
  ⟨gs, location,
    some "org.apache.hadoop.mapred.TextInputFormat",
    some "org.apache.hadoop.hive.ql.io.HiveIgnoreKeyTextOutputFormat",
    some "org.apache.hadoop.hive.serde2.lazy.LazySimpleSerDe",
    some false⟩

/-- The `StorageDescriptor` the `update_table` call sends: columns and
location only. -/
def minimalStorageDescriptor (gs : List (String × String)) (location : String) :
    StorageDescriptor :=
  ⟨gs, location, Option.none, Option.none, Option.none, Option.none⟩

/-- The `TableInput` of the `create_table` call. -/
def createTableInput (cfg : Config) (table_name location : String)
    (schema : List (String × String)) : TableInput :=
  ⟨table_name, fullStorageDescriptor (glueSchema cfg schema) location,
    glue_partition_keys cfg, some "EXTERNAL_TABLE",
    some [("classification", "parquet"), ("compressionType", "snappy"),
      ("typeOfData", "file")]⟩

/-- The `TableInput` of the `update_table` fallback call. -/
def updateTableInput (cfg : Config) (table_name location : String)
    (schema : List (String × String)) : TableInput :=
  ⟨table_name, minimalStorageDescriptor (glueSchema cfg schema) location,
    glue_partition_keys cfg, Option.none, Option.none⟩

/-- Body of `create_glue_table` without the outer `try`: emits the create
call; on `AlreadyExistsException` emits the update call; the second
component is the exception (if any) left for the outer handler. -/
def create_glue_table_attempt (cfg : Config) (env : Env)
    (table_name location : String) (schema : List (String × String)) :
    List Event × Option String :=
  let ev0 := Event.createTableCall "healthlake_analytics"
    (createTableInput cfg table_name location schema)
  match env.createResult table_name with
  | CreateResult.ok =>
    ([ev0, Event.log ("Created Glue table: " ++ table_name)], Option.none)
  | CreateResult.err m => ([ev0], some m)
  | CreateResult.alreadyExists =>
    let evs := [ev0,
      Event.log ("Table " ++ table_name ++ " already exists, updating..."),
      Event.updateTableCall "healthlake_analytics"
        (updateTableInput cfg table_name location schema)]
    match env.updateErr table_name with
    | Option.none => (evs, Option.none)
    | some m => (evs, some m)

/-- `create_glue_table(table_name, location, schema)`: the outer `except`
logs any catalog error and swallows it, so the function always returns
normally. -/
def create_glue_table (cfg : Config) (env : Env) (table_name location : String)
    (schema : List (String × String)) : List Event :=
  match create_glue_table_attempt cfg env table_name location schema with
  | (evs, Option.none) => evs
  | (evs, some m) =>
    evs ++ [Event.log ("Error creating/updating Glue table " ++ table_name ++
      ": " ++ m)]

/-- `process_resource_type(resource_type, input_path, output_base_path)`:
read, early-return on empty, tag, append-write partitioned by tenant then
timestamp, then sync the catalog. Returns the emitted events and the
exception the function re-raises, if any (its `except` clause logs and
`raise`s). -/
def process_resource_type (cfg : Config) (env : Env) (processing_date : String)
    (resource_type : String) : List Event × Option String :=
  match env.readResult resource_type with
  | Except.error m => ([], some m)
  | Except.ok df =>
    if df.length = 0 then ([], Option.none)
    else
      let tagged := tagDataset extract_tenant_id cfg processing_date df
      let output_path := "s3://" ++ cfg.curated_bucket ++ "/" ++
        resource_type.toLower ++ "/"
      let writeEv := Event.write output_path "append"
        [cfg.tenant_partition_key, "_export_timestamp"] tagged
      match env.writeErr resource_type with
      | some m => ([writeEv], some m)
      | Option.none =>
        ([writeEv] ++ create_glue_table cfg env resource_type.toLower output_path
          (taggedSchema cfg (env.inputSchema resource_type)), Option.none)

/-- The fixed list of FHIR resource types the script processes. -/
def resource_types : List String :=
  ["Patient", "Observation", "Condition", "MedicationRequest", "Procedure",
    "DiagnosticReport", "Encounter", "AllergyIntolerance", "Immunization",
    "CarePlan", "Goal", "MedicationStatement"]

/-- The `for resource_type in resource_types` loop of `main`: each type is
processed inside a `try` whose `except` logs the failure and continues. -/
def mainLoop (cfg : Config) (env : Env) (processing_date : String) :
    List String → List Event
  | [] => []
  | rt :: rest =>
    let step := process_resource_type cfg env processing_date rt
    step.1 ++
      (match step.2 with
        | some m => [Event.log ("Failed to process " ++ rt ++ ": " ++ m)]
        | Option.none => []) ++
      mainLoop cfg env processing_date rest

/-- `main()`: process every resource type, then report completion. The
resource type list is a parameter so behaviour is stated for every ordered
list; the script calls it with `resource_types`. -/
def main (cfg : Config) (env : Env) (processing_date : String)
    (rts : List String) : List Event :=
  mainLoop cfg env processing_date rts ++
    [Event.log "ETL processing completed successfully"]

/-- `a` occurs contiguously inside `b`. -/
def occursIn (a b : List Event) : Prop :=
  ∃ s t, b = s ++ a ++ t

/-! ## Concrete fixtures used by the witnesses -/

/-- A multi-tenant run configuration. -/
def exampleConfig : Config :=
  ⟨"raw", "curated", "tenant_id", true, "s3://raw/exports/", "2024-01-01T00:00Z"⟩

/-- A single-tenant run configuration. -/
def exampleConfigSingle : Config :=
  ⟨"raw", "curated", "tenant_id", false, "s3://raw/exports/", "2024-01-01T00:00Z"⟩

/-- One FHIR record row carrying a tenant security label. -/
def exampleRow : Row :=
  [("id", PyVal.str "1"),
    ("meta", PyVal.dict [("security", PyVal.list [mkLabel "T1"])])]

/-- An environment where every stage succeeds. -/
def exampleEnv : Env :=
  ⟨fun _ => Except.ok [exampleRow],
    fun _ => [("id", "string"), ("meta", "struct")],
    fun _ => Option.none, fun _ => CreateResult.ok, fun _ => Option.none⟩

/-- An environment whose write stage fails for resource type `"B"` only. -/
def envWriteFailB : Env :=
  ⟨fun _ => Except.ok [exampleRow],
    fun _ => [("id", "string"), ("meta", "struct")],
    fun rt => if rt = "B" then some "S3 write error" else Option.none,
    fun _ => CreateResult.ok, fun _ => Option.none⟩

/-- An environment whose read yields an empty dataset. -/
def envEmptyRead : Env :=
  ⟨fun _ => Except.ok [], fun _ => [],
    fun _ => Option.none, fun _ => CreateResult.ok, fun _ => Option.none⟩

/-- An environment whose catalog create call fails with a permissions
error. -/
def envCatalogDenied : Env :=
  ⟨fun _ => Except.ok [exampleRow],
    fun _ => [("id", "string"), ("meta", "struct")],
    fun _ => Option.none, fun _ => CreateResult.err "AccessDeniedException",
    fun _ => Option.none⟩

/-- An environment whose catalog reports every table as already existing. -/
def envTableExists : Env :=
  ⟨fun _ => Except.ok [exampleRow],
    fun _ => [("id", "string"), ("meta", "struct")],
    fun _ => Option.none, fun _ => CreateResult.alreadyExists,
    fun _ => Option.none⟩

/-- An extractor that returns a marker value unlike the real one; used to
exhibit that single-tenant tagging cannot observe the extractor. -/
def markerExtractor : PyVal → PyVal := fun _ => PyVal.str "BOOM"

/-- The identity function as a (wrong) extractor; see `markerExtractor`. -/
def identityExtractor : PyVal → PyVal := fun v => v

/-! ## Helper lemmas about the extractor -/

/-- The loop ignores an entry that is not a matching label. -/
theorem findTenantLoop_skip (x : PyVal) (rest : List PyVal)
    (h : matchesTenant x = false) :
    findTenantLoop (x :: rest) = findTenantLoop rest := by
  cases x with
  | dict es =>
    have h2 : ¬dictGet es "system" = some (PyVal.str TENANT_CLAIM_SYSTEM) := by
      simpa [matchesTenant] using h
    simp [findTenantLoop, h2]
  | none => rfl
  | str s => rfl
  | int n => rfl
  | list l => rfl

/-- The loop ignores a whole block of non-matching entries. -/
theorem findTenantLoop_append_none (pre rest : List PyVal)
    (h : ∀ x ∈ pre, matchesTenant x = false) :
    findTenantLoop (pre ++ rest) = findTenantLoop rest := by
  induction pre with
  | nil => rfl
  | cons x xs ih =>
    rw [List.cons_append, findTenantLoop_skip x _ (h x (by simp))]
    exact ih (fun y hy => h y (by simp [hy]))

/-- At a matching label the loop returns `label.get('code', 'unknown')`. -/
theorem findTenantLoop_match (es : List (String × PyVal)) (rest : List PyVal)
    (h : dictGet es "system" = some (PyVal.str TENANT_CLAIM_SYSTEM)) :
    findTenantLoop (PyVal.dict es :: rest) =
      some ((dictGet es "code").getD (PyVal.str "unknown")) := by
  simp [findTenantLoop, h]

/-- On a non-empty list the extractor is exactly the loop with the
fall-through default. -/
theorem extract_list_cons (x : PyVal) (xs : List PyVal) :
    extract_tenant_id (PyVal.list (x :: xs)) =
      (findTenantLoop (x :: xs)).getD (PyVal.str "unknown") := rfl

/-- A sequence with no matching label extracts to `"unknown"`. -/
theorem extract_nonmatching (l : List PyVal)
    (h : ∀ x ∈ l, matchesTenant x = false) :
    extract_tenant_id (PyVal.list l) = PyVal.str "unknown" := by
  cases l with
  | nil => rfl
  | cons x xs =>
    rw [extract_list_cons]
    have h2 : findTenantLoop (x :: xs) = Option.none := by
      have h3 := findTenantLoop_append_none (x :: xs) [] h
      simpa using h3
    rw [h2]
    rfl

/-- A non-dict entry never passes the `isinstance(label, dict)` test. -/
theorem matchesTenant_of_not_dict (x : PyVal) (h : x.isDict = false) :
    matchesTenant x = false := by
  cases x <;> simp_all [PyVal.isDict, matchesTenant]

/-! ## Claims about `extract_tenant_id` -/

/-- C1: for every sequence of security labels, `extract_tenant_id` returns
the `code` of the first label whose `system` equals the tenant claim URI
(`"unknown"` when that label has no `code` key); with two matching labels
coded `"G1"` then `"G2"` it returns `"G1"`; with no matching label it
returns `"unknown"`. -/
theorem extract_first_match :
    (∀ (pre post : List PyVal) (es : List (String × PyVal)),
      (∀ x ∈ pre, matchesTenant x = false) →
      dictGet es "system" = some (PyVal.str TENANT_CLAIM_SYSTEM) →
      extract_tenant_id (PyVal.list (pre ++ PyVal.dict es :: post)) =
        (dictGet es "code").getD (PyVal.str "unknown")) ∧
    (∀ l : List PyVal, (∀ x ∈ l, matchesTenant x = false) →
      extract_tenant_id (PyVal.list l) = PyVal.str "unknown") ∧
    extract_tenant_id (PyVal.list [mkLabel "G1", mkLabel "G2"]) = PyVal.str "G1" := by
  refine ⟨?_, extract_nonmatching, by decide⟩
  intro pre post es hpre hsys
  cases pre with
  | nil =>
    rw [List.nil_append, extract_list_cons, findTenantLoop_match es post hsys]
    rfl
  | cons x xs =>
    rw [List.cons_append, extract_list_cons,
      findTenantLoop_skip x _ (hpre x (by simp)),
      findTenantLoop_append_none xs _ (fun y hy => hpre y (by simp [hy])),
      findTenantLoop_match es post hsys]
    rfl

/-- C1 witness: a non-matching label before a matching one coded `"T1"`. -/
theorem extract_first_match_witness :
    extract_tenant_id (PyVal.list [PyVal.dict [("system", PyVal.str "other")],
      PyVal.dict [("system", PyVal.str TENANT_CLAIM_SYSTEM),
        ("code", PyVal.str "T1")]]) =
      (dictGet [("system", PyVal.str TENANT_CLAIM_SYSTEM),
        ("code", PyVal.str "T1")] "code").getD (PyVal.str "unknown") :=
  extract_first_match.1 [PyVal.dict [("system", PyVal.str "other")]] []
    [("system", PyVal.str TENANT_CLAIM_SYSTEM), ("code", PyVal.str "T1")]
    (by decide) (by decide)

/-- C2: the extractor is total and never raises — the guarded function maps
every exception of the unguarded body to `"unknown"`, and null input, the
empty sequence, and sequences of non-label-shaped entries such as
`["not-a-label"]` all yield `"unknown"`. -/
theorem extract_total_never_raises :
    (∀ (v : PyVal) (m : String),
      extract_tenant_id_unguarded v = Except.error m →
      extract_tenant_id v = PyVal.str "unknown") ∧
    (∀ items : List PyVal, (∀ x ∈ items, x.isDict = false) →
      extract_tenant_id (PyVal.list items) = PyVal.str "unknown") ∧
    extract_tenant_id PyVal.none = PyVal.str "unknown" ∧
    extract_tenant_id (PyVal.list []) = PyVal.str "unknown" ∧
    extract_tenant_id (PyVal.list [PyVal.str "not-a-label"]) = PyVal.str "unknown" := by
  refine ⟨?_, ?_, rfl, rfl, by decide⟩
  · intro v m h
    unfold extract_tenant_id
    rw [h]
  · intro items h
    exact extract_nonmatching items
      (fun x hx => matchesTenant_of_not_dict x (h x hx))

/-- C2 witness: a truthy non-iterable (the integer 1, whose iteration
raises `TypeError` in the source) and a list of non-dict entries. -/
theorem extract_total_never_raises_witness :
    extract_tenant_id (PyVal.int 1) = PyVal.str "unknown" ∧
    extract_tenant_id (PyVal.list [PyVal.str "not-a-label", PyVal.int 3]) =
      PyVal.str "unknown" :=
  ⟨extract_total_never_raises.1 (PyVal.int 1)
      "TypeError: object is not iterable" rfl,
    extract_total_never_raises.2.1 [PyVal.str "not-a-label", PyVal.int 3]
      (by decide)⟩

/-- C10: non-mapping entries are skipped individually — a block of
malformed (non-dict) entries before a matching mapping does not prevent the
extractor from returning that mapping's code. -/
theorem extract_skips_malformed (bads : List PyVal)
    (es : List (String × PyVal)) (post : List PyVal) (c : PyVal)
    (hne : bads ≠ [])
    (hbads : ∀ x ∈ bads, x.isDict = false)
    (hsys : dictGet es "system" = some (PyVal.str TENANT_CLAIM_SYSTEM))
    (hcode : dictGet es "code" = some c) :
    extract_tenant_id (PyVal.list (bads ++ PyVal.dict es :: post)) = c := by
  cases bads with
  | nil => exact absurd rfl hne
  | cons x xs =>
    rw [List.cons_append, extract_list_cons,
      findTenantLoop_skip x _
        (matchesTenant_of_not_dict x (hbads x (by simp))),
      findTenantLoop_append_none xs _
        (fun y hy => matchesTenant_of_not_dict y (hbads y (by simp [hy]))),
      findTenantLoop_match es post hsys, hcode]
    rfl

/-- C10 witness: the string `"junk"` and the integer 7 precede a matching
label coded `"T9"`. -/
theorem extract_skips_malformed_witness :
    extract_tenant_id (PyVal.list [PyVal.str "junk", PyVal.int 7,
      PyVal.dict [("system", PyVal.str TENANT_CLAIM_SYSTEM),
        ("code", PyVal.str "T9")]]) = PyVal.str "T9" :=
  extract_skips_malformed [PyVal.str "junk", PyVal.int 7]
    [("system", PyVal.str TENANT_CLAIM_SYSTEM), ("code", PyVal.str "T9")]
    [] (PyVal.str "T9") (by decide) (by decide) (by decide) (by decide)

/-! ## Helper lemmas about rows and tagging -/

/-- Reading back the column just set. -/
theorem rowGet_setCol_same (r : Row) (k : String) (v : PyVal) :
    rowGet (setCol r k v) k = some v := by
  induction r with
  | nil => simp [setCol, rowGet]
  | cons f t ih =>
    by_cases h : f.1 = k
    · simp [setCol, rowGet, h]
    · simp [setCol, rowGet, h, ih]

/-- Setting one column leaves the others untouched. -/
theorem rowGet_setCol_other (r : Row) (k k2 : String) (v : PyVal)
    (h : k2 ≠ k) :
    rowGet (setCol r k v) k2 = rowGet r k2 := by
  induction r with
  | nil => simp [setCol, rowGet, h, Ne.symm h]
  | cons f t ih =>
    by_cases hf : f.1 = k
    · simp [setCol, rowGet, hf, h, Ne.symm h]
    · by_cases hf2 : f.1 = k2
      · simp [setCol, rowGet, hf, hf2, h, Ne.symm h]
      · simp [setCol, rowGet, hf, hf2, ih]

/-- In single-tenant mode the tagged record does not depend on the
extractor at all. -/
theorem tagRecord_single_ignores_extractor (ext1 ext2 : PyVal → PyVal)
    (cfg : Config) (hmode : cfg.enable_multi_tenant = false)
    (processing_date : String) (r : Row) :
    tagRecord ext1 cfg processing_date r = tagRecord ext2 cfg processing_date r := by
  unfold tagRecord
  rw [hmode]
  simp

/-- In single-tenant mode the tenant column of a tagged record is the
constant `"default"`. -/
theorem tagRecord_single_default (ext : PyVal → PyVal) (cfg : Config)
    (hmode : cfg.enable_multi_tenant = false)
    (h1 : cfg.tenant_partition_key ≠ "_export_timestamp")
    (h2 : cfg.tenant_partition_key ≠ "_processing_date")
    (processing_date : String) (r : Row) :
    rowGet (tagRecord ext cfg processing_date r) cfg.tenant_partition_key =
      some (PyVal.str "default") := by
  unfold tagRecord
  rw [hmode]
  simp only [Bool.false_eq_true, if_false]
  rw [rowGet_setCol_other _ _ _ _ h2, rowGet_setCol_other _ _ _ _ h1,
    rowGet_setCol_same]

/-! ## Claims about tagging -/

/-- C3: in single-tenant mode tagging assigns the constant `"default"` as
the tenant column of every record, and the result is the same for any two
extractors — the extractor is never consulted, so tagging cannot depend on
the records' security labels. -/
theorem singleTenant_tags_default (cfg : Config)
    (hmode : cfg.enable_multi_tenant = false)
    (h1 : cfg.tenant_partition_key ≠ "_export_timestamp")
    (h2 : cfg.tenant_partition_key ≠ "_processing_date")
    (ext1 ext2 : PyVal → PyVal) (processing_date : String) (df : List Row) :
    tagDataset ext1 cfg processing_date df = tagDataset ext2 cfg processing_date df ∧
    ∀ r ∈ tagDataset ext1 cfg processing_date df,
      rowGet r cfg.tenant_partition_key = some (PyVal.str "default") := by
  constructor
  · unfold tagDataset
    exact List.map_congr_left (fun r _ =>
      tagRecord_single_ignores_extractor ext1 ext2 cfg hmode processing_date r)
  · intro r hr
    obtain ⟨r0, _, rfl⟩ := List.mem_map.mp hr
    exact tagRecord_single_default ext1 cfg hmode h1 h2 processing_date r0

/-- C3 witness: a record whose label would make the marker extractor and
the identity extractor disagree still tags to `"default"` under both. -/
theorem singleTenant_tags_default_witness :
    tagDataset markerExtractor exampleConfigSingle "pd" [exampleRow] =
      tagDataset identityExtractor exampleConfigSingle "pd" [exampleRow] ∧
    rowGet (tagRecord markerExtractor exampleConfigSingle "pd" exampleRow)
      exampleConfigSingle.tenant_partition_key = some (PyVal.str "default") :=
  ⟨(singleTenant_tags_default exampleConfigSingle (by decide) (by decide)
      (by decide) markerExtractor identityExtractor "pd" [exampleRow]).1,
    (singleTenant_tags_default exampleConfigSingle (by decide) (by decide)
      (by decide) markerExtractor identityExtractor "pd" [exampleRow]).2
      (tagRecord markerExtractor exampleConfigSingle "pd" exampleRow)
      (by simp [tagDataset])⟩

/-! ## Claims about `process_resource_type` on empty input -/

/-- C5: for a resource type whose input dataset is empty, processing emits
no event at all — no write, no catalog call — and raises no error. -/
theorem empty_input_noop (cfg : Config) (env : Env)
    (processing_date rt : String)
    (h : env.readResult rt = Except.ok []) :
    process_resource_type cfg env processing_date rt = ([], Option.none) := by
  unfold process_resource_type
  rw [h]
  rfl

/-- C5 witness: the empty-read environment. -/
theorem empty_input_noop_witness :
    process_resource_type exampleConfig envEmptyRead "pd" "Patient" =
      ([], Option.none) :=
  empty_input_noop exampleConfig envEmptyRead "pd" "Patient" rfl

/-! ## Helper lemmas about the catalog layer -/

/-- The column list the catalog calls carry never names the tenant key or
the export timestamp. -/
theorem glueSchema_excludes (cfg : Config) (schema : List (String × String)) :
    ∀ c ∈ glueSchema cfg schema,
      c.1 ≠ cfg.tenant_partition_key ∧ c.1 ≠ "_export_timestamp" := by
  intro c hc
  unfold glueSchema at hc
  obtain ⟨f, hf, rfl⟩ := List.mem_map.mp hc
  have h2 := (List.mem_filter.mp hf).2
  simp only [Bool.and_eq_true, Bool.not_eq_eq_eq_not, Bool.not_true,
    beq_eq_false_iff_ne, ne_eq] at h2
  exact ⟨h2.1, h2.2⟩

/-- Every schema field other than the tenant key and the export timestamp
survives (with lower-cased type) into the catalog column list. -/
theorem glueSchema_complete (cfg : Config) (schema : List (String × String)) :
    ∀ f ∈ schema, f.1 ≠ cfg.tenant_partition_key → f.1 ≠ "_export_timestamp" →
      (f.1, f.2.toLower) ∈ glueSchema cfg schema := by
  intro f hf h1 h2
  unfold glueSchema
  refine List.mem_map.mpr ⟨f, List.mem_filter.mpr ⟨hf, ?_⟩, rfl⟩
  simp [h1, h2]

/-- Any catalog call event inside `create_glue_table` carries exactly the
create input (for creates) or the update input (for updates), always
against the fixed database. -/
theorem catalog_call_shape (cfg : Config) (env : Env) (tn loc : String)
    (schema : List (String × String)) (db : String) (inp : TableInput) :
    (Event.createTableCall db inp ∈ create_glue_table cfg env tn loc schema →
      db = "healthlake_analytics" ∧ inp = createTableInput cfg tn loc schema) ∧
    (Event.updateTableCall db inp ∈ create_glue_table cfg env tn loc schema →
      db = "healthlake_analytics" ∧ inp = updateTableInput cfg tn loc schema) := by
  unfold create_glue_table create_glue_table_attempt
  cases env.createResult tn <;> cases env.updateErr tn <;>
    constructor <;> intro h <;> simp at h <;> simp [h]

/-- The update call happens exactly when the create reported
`AlreadyExists`. -/
theorem update_iff_already_exists (cfg : Config) (env : Env) (tn loc : String)
    (schema : List (String × String)) :
    (∃ db inp, Event.updateTableCall db inp ∈
        create_glue_table cfg env tn loc schema) ↔
      env.createResult tn = CreateResult.alreadyExists := by
  unfold create_glue_table create_glue_table_attempt
  cases env.createResult tn <;> cases env.updateErr tn <;> simp

/-- The trace of `create_glue_table` starts with the create attempt. -/
theorem create_glue_table_head (cfg : Config) (env : Env) (tn loc : String)
    (schema : List (String × String)) :
    (create_glue_table cfg env tn loc schema).head? =
      some (Event.createTableCall "healthlake_analytics"
        (createTableInput cfg tn loc schema)) := by
  unfold create_glue_table create_glue_table_attempt
  cases env.createResult tn <;> cases env.updateErr tn <;> rfl

/-- A failing catalog call (create or update) leaves the error-log line in
the trace. -/
theorem create_glue_table_logs_failure (cfg : Config) (env : Env)
    (tn loc : String) (schema : List (String × String)) :
    (∀ m, env.createResult tn = CreateResult.err m →
      Event.log ("Error creating/updating Glue table " ++ tn ++ ": " ++ m) ∈
        create_glue_table cfg env tn loc schema) ∧
    (∀ m, env.createResult tn = CreateResult.alreadyExists →
      env.updateErr tn = some m →
      Event.log ("Error creating/updating Glue table " ++ tn ++ ": " ++ m) ∈
        create_glue_table cfg env tn loc schema) := by
  constructor
  · intro m h
    unfold create_glue_table create_glue_table_attempt
    rw [h]
    simp
  · intro m h hu
    unfold create_glue_table create_glue_table_attempt
    rw [h, hu]
    simp

/-! ## Claims about the catalog layer -/

/-- C7: every table description the catalog calls carry excludes the
tenant column and the export-timestamp column from its plain column list
(every other schema field stays, with lower-cased type), and those two
fields appear exactly as the partition keys, tenant first. -/
theorem table_description_excludes (cfg : Config) (env : Env)
    (tn loc : String) (s : List (String × String)) (db : String)
    (inp : TableInput)
    (h : Event.createTableCall db inp ∈ create_glue_table cfg env tn loc s ∨
      Event.updateTableCall db inp ∈ create_glue_table cfg env tn loc s) :
    (∀ c ∈ inp.storageDescriptor.columns,
      c.1 ≠ cfg.tenant_partition_key ∧ c.1 ≠ "_export_timestamp") ∧
    (∀ f ∈ s, f.1 ≠ cfg.tenant_partition_key → f.1 ≠ "_export_timestamp" →
      (f.1, f.2.toLower) ∈ inp.storageDescriptor.columns) ∧
    inp.partitionKeys =
      [(cfg.tenant_partition_key, "string"), ("_export_timestamp", "string")] := by
  have hcols : inp.storageDescriptor.columns = glueSchema cfg s ∧
      inp.partitionKeys = glue_partition_keys cfg := by
    rcases h with h | h
    · have h2 := ((catalog_call_shape cfg env tn loc s db inp).1 h).2
      rw [h2]
      exact ⟨rfl, rfl⟩
    · have h2 := ((catalog_call_shape cfg env tn loc s db inp).2 h).2
      rw [h2]
      exact ⟨rfl, rfl⟩
  rw [hcols.1, hcols.2]
  exact ⟨glueSchema_excludes cfg s, glueSchema_complete cfg s, rfl⟩

/-- C7 witness: the create call of a successful sync, on a schema holding
an ordinary field together with the tenant and timestamp fields. -/
theorem table_description_excludes_witness :
    ("id", "String".toLower) ∈ (createTableInput exampleConfig "patient"
      "s3://curated/patient/" [("id", "String"), ("tenant_id", "string"),
        ("_export_timestamp", "string")]).storageDescriptor.columns ∧
    (createTableInput exampleConfig "patient" "s3://curated/patient/"
      [("id", "String"), ("tenant_id", "string"),
        ("_export_timestamp", "string")]).partitionKeys =
      [(exampleConfig.tenant_partition_key, "string"),
        ("_export_timestamp", "string")] :=
  ⟨(table_description_excludes exampleConfig exampleEnv "patient"
      "s3://curated/patient/"
      [("id", "String"), ("tenant_id", "string"), ("_export_timestamp", "string")]
      "healthlake_analytics" _ (Or.inl (by
        simp [create_glue_table, create_glue_table_attempt, exampleEnv]))).2.1
      ("id", "String") (by simp) (by decide) (by decide),
    (table_description_excludes exampleConfig exampleEnv "patient"
      "s3://curated/patient/"
      [("id", "String"), ("tenant_id", "string"), ("_export_timestamp", "string")]
      "healthlake_analytics" _ (Or.inl (by
        simp [create_glue_table, create_glue_table_attempt, exampleEnv]))).2.2⟩

/-- C8: reconciliation attempts the create first; an update call is issued
exactly when the catalog reports the table already exists; and the update's
description carries the columns and the location but none of the
storage-format and serialization parameters the create call sends. -/
theorem reconcile_create_then_update (cfg : Config) (env : Env)
    (tn loc : String) (schema : List (String × String)) :
    (∃ inp, (create_glue_table cfg env tn loc schema).head? =
        some (Event.createTableCall "healthlake_analytics" inp) ∧
      inp.storageDescriptor.inputFormat =
        some "org.apache.hadoop.mapred.TextInputFormat" ∧
      inp.storageDescriptor.outputFormat =
        some "org.apache.hadoop.hive.ql.io.HiveIgnoreKeyTextOutputFormat" ∧
      inp.storageDescriptor.serializationLibrary =
        some "org.apache.hadoop.hive.serde2.lazy.LazySimpleSerDe") ∧
    ((∃ db inp, Event.updateTableCall db inp ∈
        create_glue_table cfg env tn loc schema) ↔
      env.createResult tn = CreateResult.alreadyExists) ∧
    (∀ db inp, Event.updateTableCall db inp ∈
        create_glue_table cfg env tn loc schema →
      inp.storageDescriptor.columns = glueSchema cfg schema ∧
      inp.storageDescriptor.location = loc ∧
      inp.storageDescriptor.inputFormat = Option.none ∧
      inp.storageDescriptor.outputFormat = Option.none ∧
      inp.storageDescriptor.serializationLibrary = Option.none ∧
      inp.storageDescriptor.storedAsSubDirectories = Option.none) := by
  refine ⟨⟨createTableInput cfg tn loc schema,
      create_glue_table_head cfg env tn loc schema, rfl, rfl, rfl⟩,
    update_iff_already_exists cfg env tn loc schema, ?_⟩
  intro db inp h
  rw [((catalog_call_shape cfg env tn loc schema db inp).2 h).2]
  exact ⟨rfl, rfl, rfl, rfl, rfl, rfl⟩

/-- C8 witness: a catalog that reports `AlreadyExists`, so the update call
is present and format-free. -/
theorem reconcile_create_then_update_witness :
    (updateTableInput exampleConfig "patient" "s3://curated/patient/"
        [("id", "string")]).storageDescriptor.columns =
      glueSchema exampleConfig [("id", "string")] ∧
    (updateTableInput exampleConfig "patient" "s3://curated/patient/"
        [("id", "string")]).storageDescriptor.location = "s3://curated/patient/" ∧
    (updateTableInput exampleConfig "patient" "s3://curated/patient/"
        [("id", "string")]).storageDescriptor.inputFormat = Option.none ∧
    (updateTableInput exampleConfig "patient" "s3://curated/patient/"
        [("id", "string")]).storageDescriptor.outputFormat = Option.none ∧
    (updateTableInput exampleConfig "patient" "s3://curated/patient/"
        [("id", "string")]).storageDescriptor.serializationLibrary = Option.none ∧
    (updateTableInput exampleConfig "patient" "s3://curated/patient/"
        [("id", "string")]).storageDescriptor.storedAsSubDirectories = Option.none :=
  (reconcile_create_then_update exampleConfig envTableExists "patient"
    "s3://curated/patient/" [("id", "string")]).2.2 "healthlake_analytics"
    (updateTableInput exampleConfig "patient" "s3://curated/patient/"
      [("id", "string")]) (by
      simp [create_glue_table, create_glue_table_attempt, envTableExists])

/-- C9: once the data write has succeeded on a non-empty dataset, no
catalog error — a failing create other than AlreadyExists, or a failing
update — propagates out of processing: the job's outcome is error-free and
the failure is logged in the trace instead. -/
theorem catalog_errors_swallowed (cfg : Config) (env : Env)
    (processing_date rt : String) (df : List Row)
    (hread : env.readResult rt = Except.ok df) (hne : df ≠ [])
    (hwrite : env.writeErr rt = Option.none) :
    (process_resource_type cfg env processing_date rt).2 = Option.none ∧
    (∀ m, env.createResult rt.toLower = CreateResult.err m →
      Event.log ("Error creating/updating Glue table " ++ rt.toLower ++
          ": " ++ m) ∈ (process_resource_type cfg env processing_date rt).1) ∧
    (∀ m, env.createResult rt.toLower = CreateResult.alreadyExists →
      env.updateErr rt.toLower = some m →
      Event.log ("Error creating/updating Glue table " ++ rt.toLower ++
          ": " ++ m) ∈ (process_resource_type cfg env processing_date rt).1) := by
  have hlen : ¬df.length = 0 := by
    simpa [List.length_eq_zero] using hne
  unfold process_resource_type
  rw [hread]
  dsimp only
  rw [if_neg hlen, hwrite]
  refine ⟨rfl, ?_, ?_⟩
  · intro m h
    exact List.mem_append.mpr (Or.inr
      ((create_glue_table_logs_failure cfg env rt.toLower _ _).1 m h))
  · intro m h hu
    exact List.mem_append.mpr (Or.inr
      ((create_glue_table_logs_failure cfg env rt.toLower _ _).2 m h hu))

/-- C9 witness: a permissions failure on the create call leaves the job
error-free with the failure logged. -/
theorem catalog_errors_swallowed_witness :
    (process_resource_type exampleConfig envCatalogDenied "pd" "Patient").2 =
      Option.none ∧
    Event.log ("Error creating/updating Glue table " ++ "Patient".toLower ++
        ": " ++ "AccessDeniedException") ∈
      (process_resource_type exampleConfig envCatalogDenied "pd" "Patient").1 :=
  ⟨(catalog_errors_swallowed exampleConfig envCatalogDenied "pd" "Patient"
      [exampleRow] rfl (by decide) rfl).1,
    (catalog_errors_swallowed exampleConfig envCatalogDenied "pd" "Patient"
      [exampleRow] rfl (by decide) rfl).2.1 "AccessDeniedException" rfl⟩

/-! ## Helper lemmas about traces -/

/-- The catalog layer emits no data-write event. -/
theorem write_not_mem_create_glue_table (cfg : Config) (env : Env)
    (tn loc : String) (schema : List (String × String))
    (path mode : String) (pby : List String) (data : List Row) :
    Event.write path mode pby data ∉ create_glue_table cfg env tn loc schema := by
  unfold create_glue_table create_glue_table_attempt
  cases env.createResult tn <;> cases env.updateErr tn <;> simp

/-- Any write event in one resource type's processing trace uses append
mode and the tenant-then-timestamp partition columns. -/
theorem write_shape_process (cfg : Config) (env : Env)
    (processing_date rt : String) (path mode : String) (pby : List String)
    (data : List Row)
    (h : Event.write path mode pby data ∈
      (process_resource_type cfg env processing_date rt).1) :
    mode = "append" ∧ pby = [cfg.tenant_partition_key, "_export_timestamp"] := by
  unfold process_resource_type at h
  cases hr : env.readResult rt with
  | error m =>
    rw [hr] at h
    simp at h
  | ok df =>
    rw [hr] at h
    dsimp only at h
    by_cases hd : df.length = 0
    · rw [if_pos hd] at h
      simp at h
    · rw [if_neg hd] at h
      cases hw : env.writeErr rt with
      | some m =>
        rw [hw] at h
        simp at h
        exact ⟨h.2.1, h.2.2.1⟩
      | none =>
        rw [hw] at h
        rcases List.mem_append.mp h with h1 | h2
        · simp at h1
          exact ⟨h1.2.1, h1.2.2.1⟩
        · exact absurd h2 (write_not_mem_create_glue_table cfg env rt.toLower _ _
            path mode pby data)

/-- The head equation of the orchestrator loop, re-associated so the
current step's trace is an explicit leading block. -/
theorem mainLoop_cons (cfg : Config) (env : Env) (processing_date rt : String)
    (rest : List String) :
    mainLoop cfg env processing_date (rt :: rest) =
      (process_resource_type cfg env processing_date rt).1 ++
        ((match (process_resource_type cfg env processing_date rt).2 with
          | some m => [Event.log ("Failed to process " ++ rt ++ ": " ++ m)]
          | Option.none => []) ++
          mainLoop cfg env processing_date rest) := by
  rw [mainLoop, List.append_assoc]

/-- Any write event in the loop's trace uses append mode and the
tenant-then-timestamp partition columns. -/
theorem write_shape_mainLoop (cfg : Config) (env : Env)
    (processing_date : String) (rts : List String) (path mode : String)
    (pby : List String) (data : List Row)
    (h : Event.write path mode pby data ∈ mainLoop cfg env processing_date rts) :
    mode = "append" ∧ pby = [cfg.tenant_partition_key, "_export_timestamp"] := by
  induction rts with
  | nil => simp [mainLoop] at h
  | cons rt rest ih =>
    rw [mainLoop_cons] at h
    rcases List.mem_append.mp h with h1 | h2
    · exact write_shape_process cfg env processing_date rt path mode pby data h1
    · rcases List.mem_append.mp h2 with h3 | h4
      · cases hs : (process_resource_type cfg env processing_date rt).2 with
        | none =>
          rw [hs] at h3
          simp at h3
        | some m =>
          rw [hs] at h3
          simp at h3
      · exact ih h4

/-- A block keeps occurring when material is prepended. -/
theorem occursIn_append_left (a b c : List Event) (h : occursIn a b) :
    occursIn a (c ++ b) := by
  obtain ⟨s, t, rfl⟩ := h
  exact ⟨c ++ s, t, by simp⟩

/-- A block keeps occurring when material is appended. -/
theorem occursIn_append_right (a b d : List Event) (h : occursIn a b) :
    occursIn a (b ++ d) := by
  obtain ⟨s, t, rfl⟩ := h
  exact ⟨s, t ++ d, by simp⟩

/-- A leading block occurs. -/
theorem occursIn_start (a t : List Event) : occursIn a (a ++ t) :=
  ⟨[], t, rfl⟩

/-- Every listed resource type's full processing trace occurs in the
loop's trace, whatever the outcomes of the other types. -/
theorem process_occursIn_mainLoop (cfg : Config) (env : Env)
    (processing_date : String) (rts : List String) (rt : String)
    (h : rt ∈ rts) :
    occursIn (process_resource_type cfg env processing_date rt).1
      (mainLoop cfg env processing_date rts) := by
  induction rts with
  | nil => cases h
  | cons r rest ih =>
    rcases List.mem_cons.mp h with h1 | h2
    · subst h1
      rw [mainLoop_cons]
      exact occursIn_start _ _
    · rw [mainLoop_cons]
      exact occursIn_append_left _ _ _ (occursIn_append_left _ _ _ (ih h2))

/-! ## Claims about writes and the orchestrator -/

/-- C6: every data write in a run's trace uses append mode — never
overwrite — and is partitioned by exactly the tenant column first and the
export-timestamp column second. -/
theorem writes_append_partitioned (cfg : Config) (env : Env)
    (processing_date : String) (rts : List String) (path mode : String)
    (pby : List String) (data : List Row)
    (h : Event.write path mode pby data ∈ main cfg env processing_date rts) :
    mode = "append" ∧ pby = [cfg.tenant_partition_key, "_export_timestamp"] := by
  unfold main at h
  rcases List.mem_append.mp h with h1 | h2
  · exact write_shape_mainLoop cfg env processing_date rts path mode pby data h1
  · simp at h2

/-- C6 witness: the write event of a successful single-type run. -/
theorem writes_append_partitioned_witness :
    "append" = "append" ∧
    [exampleConfig.tenant_partition_key, "_export_timestamp"] =
      [exampleConfig.tenant_partition_key, "_export_timestamp"] :=
  writes_append_partitioned exampleConfig exampleEnv "pd" ["Patient"]
    ("s3://" ++ exampleConfig.curated_bucket ++ "/" ++ "Patient".toLower ++ "/")
    "append" [exampleConfig.tenant_partition_key, "_export_timestamp"]
    (tagDataset extract_tenant_id exampleConfig "pd" [exampleRow])
    (by simp [main, mainLoop, process_resource_type, exampleEnv,
      create_glue_table, create_glue_table_attempt])

/-- C4: for every ordered list of resource types and every environment —
including ones where some type fails at any stage — each listed type's full
processing trace occurs in the run's trace, and the run's last event is the
overall completion report. -/
theorem orchestrator_continue_on_error (cfg : Config) (env : Env)
    (processing_date : String) (rts : List String) :
    (∀ rt ∈ rts, occursIn (process_resource_type cfg env processing_date rt).1
      (main cfg env processing_date rts)) ∧
    (main cfg env processing_date rts).getLast? =
      some (Event.log "ETL processing completed successfully") := by
  constructor
  · intro rt h
    unfold main
    exact occursIn_append_right _ _ _
      (process_occursIn_mainLoop cfg env processing_date rts rt h)
  · unfold main
    rw [List.getLast?_append_cons]
    rfl

/-- C4 witness: with `B`'s write stage failing in `[A, B, C]`, the chain
for `C` still occurs in full and completion is reported. -/
theorem orchestrator_continue_on_error_witness :
    occursIn (process_resource_type exampleConfig envWriteFailB "pd" "C").1
      (main exampleConfig envWriteFailB "pd" ["A", "B", "C"]) ∧
    (main exampleConfig envWriteFailB "pd" ["A", "B", "C"]).getLast? =
      some (Event.log "ETL processing completed successfully") :=
  ⟨(orchestrator_continue_on_error exampleConfig envWriteFailB "pd"
      ["A", "B", "C"]).1 "C" (by simp),
    (orchestrator_continue_on_error exampleConfig envWriteFailB "pd"
      ["A", "B", "C"]).2⟩

end HealthlakeEtl
